import Mathlib

/-!
Verification of the gmxapi simulation control plane (lifecycle and
interruption protocol) and of two helper routines of
`src/programs/alexandria/molprop_tables.cpp`.

The control-plane implementation (Context, System/SimulationSpec, Session,
the stop-condition registry of `sighandler.cpp`) is exercised only through
its tests in `src/api/cpp/tests/runner.cpp`; the implementation itself is
not part of the source tree under verification, so it is modelled from the
specification.  The table helpers `outside` and
`alexandria_molprop_category_table` are embedded directly from their
source.
-/

/-- Modelled from the spec: the StopSignalRegistry state, "a single
enumerated value, one of {None, RequestedAtNextCheckpoint,
RequestedImmediate}" (the implementation's `gmx_stop_cond` enum of
`sighandler.cpp`, which is not in the verified source tree). -/
inductive StopKind
  | none
  | requestedAtNextCheckpoint
  | requestedImmediate
deriving DecidableEq, Repr

/-- Modelled from the spec: the error taxonomy of section 7 plus the
success code. -/
inductive StatusCode
  | ok
  | invalidArgument
  | launchError
  | invalidState
  | engineFailure
  | loadError
deriving DecidableEq, Repr

/-- Modelled from the spec: `Status` "carries a success flag and a
human-readable diagnostic"; the flag is derived from the typed code. -/
structure Status where
  code : StatusCode
  message : String
deriving DecidableEq, Repr

def Status.success (st : Status) : Bool := st.code == StatusCode.ok

def Status.ok : Status := ⟨StatusCode.ok, ""⟩

/-- Modelled from the spec: Session lifecycle states,
`Created → Running → {Completed | Interrupted} → Closed`. -/
inductive SessionPhase
  | created
  | running
  | completed
  | interrupted
  | closed
deriving DecidableEq, Repr

/-- Modelled from the spec: outcome of the excluded engine-step
collaborator `advanceOneUnit() -> {continues, fails(reason)}`. -/
inductive UnitOutcome
  | continues
  | fails (reason : String)
deriving DecidableEq, Repr

/-- Modelled from the spec: the process-wide mutable state the control
plane touches: the StopSignalRegistry value and the persistent engine
output (the trajectory, a list of recorded global step indices, which
survives Session destruction the way on-disk output does). -/
structure SysState where
  registry : StopKind
  trajectory : List Nat
deriving DecidableEq, Repr

/-- Modelled from the spec: a Context is "an ordered sequence of
configuration tokens (argument list) plus an opaque binding to engine
resources".  `runningBound` records whether a Session bound to this
Context is currently Running; `resourcesOk` abstracts whether resource
acquisition from the Context's bindings succeeds at launch. -/
structure Context where
  mdArgs : List String
  runningBound : Bool
  resourcesOk : Bool
deriving DecidableEq, Repr

/-- Modelled from the spec: a SimulationSpec is "immutable after
construction; wraps a reference to an on-disk simulation definition". -/
structure SimulationSpec where
  path : String
deriving DecidableEq, Repr

/-- Modelled from the spec: a Session is the live binding of one
SimulationSpec to one Context; it snapshots its step budget from the
Context's argument list at launch time. -/
structure Session where
  phase : SessionPhase
  remainingSteps : Nat
deriving DecidableEq, Repr

/-- Decimal digit accumulation for the step-count token. -/
def digits2nat : List Char → Nat → Option Nat
  | [], acc => Option.some acc
  | c :: rest, acc =>
      if c.isDigit then digits2nat rest (acc * 10 + (c.toNat - 48)) else Option.none

/-- Decimal parse of a configuration token. -/
def strToNat (s : String) : Option Nat :=
  match s.data with
  | [] => Option.none
  | l => digits2nat l 0

/-- Modelled from the spec: extraction of the recognized "-nsteps"
step-count override token from the argument list. -/
def parseNsteps : List String → Option Nat
  | [] => Option.none
  | [_] => Option.none
  | a :: v :: rest =>
      if a = "-nsteps" then strToNat v else parseNsteps (v :: rest)

/-- Modelled from the spec: `setArguments(args)` "replaces the
configuration token sequence; fails with InvalidArgument if a Session
currently bound to this Context is in the Running state". -/
def Context.setArguments (c : Context) (args : List String) : Status × Context :=
  if c.runningBound then
    (⟨StatusCode.invalidArgument, "a bound Session is Running"⟩, c)
  else
    (Status.ok, { c with mdArgs := args })

/-- Modelled from the spec: `SimulationSpec.launch(context)`.  Effect, in
order: (1) acquire engine resources from the Context's bindings; (2)
`StopSignalRegistry.clear()`; (3) produce the new Session.  On resource
acquisition failure it returns a null Session and a LaunchError Status
and leaves no partial state behind. -/
def SimulationSpec.launch (sp : SimulationSpec) (ctx : Context) (s : SysState) :
    Option Session × Status × SysState :=
  if ctx.resourcesOk then
    (Option.some
       { phase := SessionPhase.created,
         remainingSteps := (parseNsteps ctx.mdArgs).getD 0 },
     Status.ok,
     { s with registry := StopKind.none })
  else
    (Option.none, ⟨StatusCode.launchError, "resource acquisition failed"⟩, s)

/-- Modelled from the spec: the step loop of `run()`.  `adv` is the
excluded engine collaborator (outcome of the unit of work at a given
global step index); `sets` is the asynchronous SignalAdapter, delivering
an optional `set(kind)` just before the k-th synchronization-point check
(last-write-wins).  At each synchronization boundary the registry is
read; a non-None value terminates the run gracefully as Interrupted
without clearing the registry.  Returns final phase, Status, remaining
step budget, and the new system state. -/
def runSteps (adv : Nat → UnitOutcome) (sets : Nat → Option StopKind) :
    Nat → Nat → SysState → SessionPhase × Status × Nat × SysState
  | 0, _, s => (SessionPhase.completed, Status.ok, 0, s)
  | Nat.succ n, k, s =>
      match (sets k).getD s.registry with
      | StopKind.none =>
          match adv s.trajectory.length with
          | UnitOutcome.continues =>
              runSteps adv sets n (k + 1)
                { registry := StopKind.none,
                  trajectory := s.trajectory ++ [s.trajectory.length] }
          | UnitOutcome.fails r =>
              (SessionPhase.completed, ⟨StatusCode.engineFailure, r⟩, Nat.succ n,
                { s with registry := StopKind.none })
      | reg =>
          (SessionPhase.interrupted, Status.ok, Nat.succ n, { s with registry := reg })

/-- Modelled from the spec: `Session.run()`.  Invoking `run()` on a Closed
Session fails with InvalidState; otherwise the engine is driven forward
until natural completion, engine failure, or an observed interruption
request. -/
def Session.run (adv : Nat → UnitOutcome) (sets : Nat → Option StopKind)
    (sess : Session) (s : SysState) : Status × Session × SysState :=
  if sess.phase = SessionPhase.closed then
    (⟨StatusCode.invalidState, "run() invoked on a Closed Session"⟩, sess, s)
  else
    let r := runSteps adv sets sess.remainingSteps 0 s
    (r.2.1, { sess with phase := r.1, remainingSteps := r.2.2.1 }, r.2.2.2)

/-- Modelled from the spec: `Session.close()`.  Idempotent, releases the
engine resources, never touches the StopSignalRegistry, always reports
success. -/
def Session.close (sess : Session) (s : SysState) : Status × Session × SysState :=
  (Status.ok, { sess with phase := SessionPhase.closed }, s)

/-- Modelled from the spec: destruction of a Session without an explicit
`close()` performs the same resource release; it leaves the process-wide
state (registry, trajectory) exactly as `close` does. -/
def Session.destroy (sess : Session) (s : SysState) : SysState :=
  (Session.close sess s).2.2

/-- One launch / run / close cycle against a shared Context, as performed
by the ContinuedMD test: `context->setMDArgs(args)` followed by
`system.launch(context)`, `session->run()`, `session->close()`.  No
asynchronous stop request is delivered.  Returns the resulting system
state (a failed launch leaves the state as launch left it). -/
def runScript (sp : SimulationSpec) (ctx : Context) (args : List String)
    (adv : Nat → UnitOutcome) (s : SysState) : SysState :=
  let c := (Context.setArguments ctx args).2
  match SimulationSpec.launch sp c s with
  | (Option.some sess, _, s') =>
      let r := Session.run adv (fun _ => Option.none) sess s'
      (Session.close r.2.1 r.2.2).2.2
  | (Option.none, _, s') => s'

/-
Embeddings from `src/programs/alexandria/molprop_tables.cpp`.  The C++
`real` type is modelled by ℚ (exact arithmetic), and the LaTeX LongTable
sink is modelled as the list of emitted output events.
-/

/-- The helper outside(vexp, vcalc, rel_toler, abs_toler) of molprop_tables.cpp,
lines 812-845, with `real` modelled as ℚ. -/
def outside (vexp vcalc rel_toler abs_toler : ℚ) : Int :=
  if abs_toler > 0 then
    if |vexp - vcalc| > 2 * abs_toler then 2
    else if |vexp - vcalc| > abs_toler then 1
    else 0
  else
    if vexp = 0 then 0
    else
      if |vexp - vcalc| / vexp > 2 * rel_toler then 2
      else if |vexp - vcalc| / vexp > rel_toler then 1
      else 0

/-- One category of a CategoryList: a name and the molecules in it.  (The
CategoryList class itself is declared outside the verified sources; its
molecule count `nMolecule()` is the length of the molecule list.) -/
structure CategoryListElement where
  name : String
  molecules : List String
deriving DecidableEq, Repr

def CategoryListElement.nMolecule (e : CategoryListElement) : Int :=
  (e.molecules.length : Int)

structure CategoryList where
  elements : List CategoryListElement
deriving DecidableEq, Repr

def CategoryList.nCategories (cl : CategoryList) : Int :=
  (cl.elements.length : Int)

/-- Output events written through the LongTable sink: `printHeader()`
(which flushes the caption, label and head lines), `printLine(s)`, and
`printFooter()`.  The LongTable class lives outside the verified sources;
only the order and content of the emitted rows matter here. -/
inductive TexLine
  | header
  | line (s : String)
  | footer
deriving DecidableEq, Repr

/-- The inner molecule loop of `alexandria_molprop_category_table`
(lines 487-497): every molecule except the last is appended to the line
buffer followed by ", ", and after each 50th molecule the buffer is
flushed with `printLine` and reset to " & &". -/
def molLoop : List String → String → Nat → List TexLine → String × Nat × List TexLine
  | [], buf, n, out => (buf, n, out)
  | m :: rest, buf, n, out =>
      let buf' := buf ++ m ++ ", "
      let n' := n + 1
      if n' % 50 = 0 then
        molLoop rest " & &" n' (out ++ [TexLine.line buf'])
      else
        molLoop rest buf' n' out

/-- The per-category body of `alexandria_molprop_category_table` (lines
477-501): a row block is produced only when `nMol >= catmin && catmin > 1`.
The C++ dereferences `endMolecules()-1`, which is undefined for an empty
molecule vector; the model renders the last molecule of an empty vector
as the empty string. -/
def categoryRowLines (catmin : Int) (e : CategoryListElement) : List TexLine :=
  if e.nMolecule ≥ catmin ∧ catmin > 1 then
    let buf0 := e.name ++ " & " ++ toString e.nMolecule ++ " &"
    let r := molLoop e.molecules.dropLast buf0 0 []
    r.2.2 ++ [TexLine.line (r.1 ++ (e.molecules.getLast?.getD ""))]
  else []

/-- The function alexandria_molprop_category_table(fp, catmin, cList) of
molprop_tables.cpp, lines 466-505, as the list of output events written
to `fp`: nothing when the list has no categories, otherwise the table
header, the qualifying category row blocks, and the footer. -/
def alexandria_molprop_category_table (catmin : Int) (cList : CategoryList) :
    List TexLine :=
  if cList.nCategories > 0 then
    TexLine.header :: (cList.elements.map (categoryRowLines catmin)).flatten
      ++ [TexLine.footer]
  else []



/-
Step-equation lemmas and invariants of the run loop.
-/

theorem runSteps_succ_stop (adv : Nat → UnitOutcome) (sets : Nat → Option StopKind)
    (n k : Nat) (s : SysState)
    (hne : (sets k).getD s.registry ≠ StopKind.none) :
    runSteps adv sets (Nat.succ n) k s =
      (SessionPhase.interrupted, Status.ok, Nat.succ n,
        { s with registry := (sets k).getD s.registry }) := by
  cases h : (sets k).getD s.registry with
  | none => exact absurd h hne
  | requestedAtNextCheckpoint => simp only [runSteps, h]
  | requestedImmediate => simp only [runSteps, h]

theorem runSteps_succ_go (adv : Nat → UnitOutcome) (sets : Nat → Option StopKind)
    (n k : Nat) (s : SysState)
    (hnone : (sets k).getD s.registry = StopKind.none)
    (hcont : adv s.trajectory.length = UnitOutcome.continues) :
    runSteps adv sets (Nat.succ n) k s =
      runSteps adv sets n (k + 1)
        ⟨StopKind.none, s.trajectory ++ [s.trajectory.length]⟩ := by
  simp only [runSteps, hnone, hcont]

theorem runSteps_succ_fail (adv : Nat → UnitOutcome) (sets : Nat → Option StopKind)
    (n k : Nat) (s : SysState) (r : String)
    (hnone : (sets k).getD s.registry = StopKind.none)
    (hfail : adv s.trajectory.length = UnitOutcome.fails r) :
    runSteps adv sets (Nat.succ n) k s =
      (SessionPhase.completed, ⟨StatusCode.engineFailure, r⟩, Nat.succ n,
        { s with registry := StopKind.none }) := by
  simp only [runSteps, hnone, hfail]

/-- Every run of the step loop ends Completed or Interrupted. -/
theorem runSteps_phase_cases (adv : Nat → UnitOutcome) (sets : Nat → Option StopKind) :
    ∀ (n k : Nat) (s : SysState),
    (runSteps adv sets n k s).1 = SessionPhase.completed ∨
    (runSteps adv sets n k s).1 = SessionPhase.interrupted := by
  intro n
  induction n with
  | zero => intro k s; exact Or.inl rfl
  | succ n ih =>
      intro k s
      by_cases hne : (sets k).getD s.registry = StopKind.none
      · cases hadv : adv s.trajectory.length with
        | continues => rw [runSteps_succ_go adv sets n k s hne hadv]; exact ih _ _
        | fails r => rw [runSteps_succ_fail adv sets n k s r hne hadv]; exact Or.inl rfl
      · rw [runSteps_succ_stop adv sets n k s hne]; exact Or.inr rfl

/-- If the step loop ends Interrupted, the registry it leaves behind is
the observed non-None request. -/
theorem runSteps_interrupted_registry (adv : Nat → UnitOutcome)
    (sets : Nat → Option StopKind) :
    ∀ (n k : Nat) (s : SysState),
    (runSteps adv sets n k s).1 = SessionPhase.interrupted →
    (runSteps adv sets n k s).2.2.2.registry ≠ StopKind.none := by
  intro n
  induction n with
  | zero => intro k s h; exact absurd h (by simp [runSteps])
  | succ n ih =>
      intro k s h
      by_cases hne : (sets k).getD s.registry = StopKind.none
      · cases hadv : adv s.trajectory.length with
        | continues =>
            rw [runSteps_succ_go adv sets n k s hne hadv] at h ⊢
            exact ih _ _ h
        | fails r =>
            rw [runSteps_succ_fail adv sets n k s r hne hadv] at h
            exact absurd h (by simp)
      · rw [runSteps_succ_stop adv sets n k s hne]
        exact hne

/-- With no asynchronous deliveries, the step loop never mutates the
registry: `run` itself only reads it. -/
theorem runSteps_registry_frame (adv : Nat → UnitOutcome)
    (sets : Nat → Option StopKind) (hsets : ∀ j, sets j = Option.none) :
    ∀ (n k : Nat) (s : SysState),
    (runSteps adv sets n k s).2.2.2.registry = s.registry := by
  intro n
  induction n with
  | zero => intro k s; rfl
  | succ n ih =>
      intro k s
      by_cases hne : (sets k).getD s.registry = StopKind.none
      · cases hadv : adv s.trajectory.length with
        | continues =>
            rw [runSteps_succ_go adv sets n k s hne hadv, ih]
            rw [hsets k] at hne
            exact hne.symm
        | fails r =>
            rw [runSteps_succ_fail adv sets n k s r hne hadv]
            rw [hsets k] at hne
            exact hne.symm
      · rw [runSteps_succ_stop adv sets n k s hne, hsets k]
        rfl

/-- If the engine never fails, the step loop reports success. -/
theorem runSteps_success (adv : Nat → UnitOutcome) (sets : Nat → Option StopKind)
    (hadv : ∀ j, adv j = UnitOutcome.continues) :
    ∀ (n k : Nat) (s : SysState),
    (runSteps adv sets n k s).2.1 = Status.ok := by
  intro n
  induction n with
  | zero => intro k s; rfl
  | succ n ih =>
      intro k s
      by_cases hne : (sets k).getD s.registry = StopKind.none
      · rw [runSteps_succ_go adv sets n k s hne (hadv _)]
        exact ih _ _
      · rw [runSteps_succ_stop adv sets n k s hne]

/-- The step loop's Status is success or an EngineFailure. -/
theorem runSteps_status_cases (adv : Nat → UnitOutcome) (sets : Nat → Option StopKind) :
    ∀ (n k : Nat) (s : SysState),
    (runSteps adv sets n k s).2.1 = Status.ok ∨
    (runSteps adv sets n k s).2.1.code = StatusCode.engineFailure := by
  intro n
  induction n with
  | zero => intro k s; exact Or.inl rfl
  | succ n ih =>
      intro k s
      by_cases hne : (sets k).getD s.registry = StopKind.none
      · cases hadv : adv s.trajectory.length with
        | continues => rw [runSteps_succ_go adv sets n k s hne hadv]; exact ih _ _
        | fails r => rw [runSteps_succ_fail adv sets n k s r hne hadv]; exact Or.inr rfl
      · rw [runSteps_succ_stop adv sets n k s hne]; exact Or.inl rfl

/-- A pending request at entry (with the SignalAdapter only ever writing
real requests) makes the loop stop gracefully at once, or complete a
zero-step run; either way the Status is success and the registry stays
non-None. -/
theorem runSteps_stop_at_entry (adv : Nat → UnitOutcome)
    (sets : Nat → Option StopKind)
    (hsets : ∀ j, sets j ≠ Option.some StopKind.none)
    (n k : Nat) (s : SysState) (hreg : s.registry ≠ StopKind.none) :
    (runSteps adv sets n k s).2.1 = Status.ok ∧
    (runSteps adv sets n k s).2.2.2.registry ≠ StopKind.none := by
  cases n with
  | zero => exact ⟨rfl, hreg⟩
  | succ n =>
      have hne : (sets k).getD s.registry ≠ StopKind.none := by
        cases h : sets k with
        | none => simpa [h] using hreg
        | some kind =>
            simp only [h, Option.getD_some]
            intro hk
            exact hsets k (by rw [h, hk])
      rw [runSteps_succ_stop adv sets n k s hne]
      exact ⟨rfl, hne⟩

/-- A clean run (no requests delivered, registry clear, engine never
failing) completes all its steps and appends exactly the next `n` global
step indices to the trajectory. -/
theorem runSteps_clean (adv : Nat → UnitOutcome)
    (hadv : ∀ j, adv j = UnitOutcome.continues) :
    ∀ (n k : Nat) (T : List Nat),
    runSteps adv (fun _ => Option.none) n k ⟨StopKind.none, T⟩ =
      (SessionPhase.completed, Status.ok, 0,
        ⟨StopKind.none, T ++ List.range' T.length n⟩) := by
  intro n
  induction n with
  | zero => intro k T; simp [runSteps]
  | succ n ih =>
      intro k T
      rw [runSteps_succ_go adv (fun _ => Option.none) n k ⟨StopKind.none, T⟩ rfl (hadv _)]
      show runSteps adv (fun _ => Option.none) n (k + 1) ⟨StopKind.none, T ++ [T.length]⟩ = _
      rw [ih (k + 1) (T ++ [T.length])]
      simp [List.range'_succ, List.append_assoc]

/-- C1: launch always clears the registry: for every prior
StopSignalRegistry state (including any non-None state), after
`SimulationSpec.launch(context)` returns successfully, the registry
reads None, so stale interruption requests never leak into a new run. -/
theorem C1_launch_clears_registry (sp : SimulationSpec) (ctx : Context)
    (s : SysState) (h : ctx.resourcesOk = true) :
    (SimulationSpec.launch sp ctx s).2.2.registry = StopKind.none := by
  simp [SimulationSpec.launch, h]

theorem C1_launch_clears_registry_witness :
    (SimulationSpec.launch ⟨"topol.tpr"⟩ ⟨["-nsteps", "10"], false, true⟩
        ⟨StopKind.requestedAtNextCheckpoint, []⟩).2.2.registry = StopKind.none :=
  C1_launch_clears_registry ⟨"topol.tpr"⟩ ⟨["-nsteps", "10"], false, true⟩
    ⟨StopKind.requestedAtNextCheckpoint, []⟩ rfl

/-- C2: if `run()` ends Interrupted, the registry still reports a
non-None stop kind afterwards; neither `close()` nor destruction of the
Session mutates the registry; and absent asynchronous deliveries `run`
itself leaves the registry exactly as it found it. -/
theorem C2_interruption_persists (adv : Nat → UnitOutcome)
    (sets : Nat → Option StopKind) (sess : Session) (s : SysState)
    (h : (Session.run adv sets sess s).2.1.phase = SessionPhase.interrupted) :
    (Session.run adv sets sess s).2.2.registry ≠ StopKind.none ∧
    (Session.close (Session.run adv sets sess s).2.1
        (Session.run adv sets sess s).2.2).2.2.registry =
      (Session.run adv sets sess s).2.2.registry ∧
    (Session.destroy (Session.run adv sets sess s).2.1
        (Session.run adv sets sess s).2.2).registry =
      (Session.run adv sets sess s).2.2.registry ∧
    ((∀ j, sets j = Option.none) →
      (Session.run adv sets sess s).2.2.registry = s.registry) := by
  by_cases hc : sess.phase = SessionPhase.closed
  · have hbad : sess.phase = SessionPhase.interrupted := by
      simpa [Session.run, hc] using h
    exact absurd (hc.symm.trans hbad) (by decide)
  · have hphase : (runSteps adv sets sess.remainingSteps 0 s).1 =
        SessionPhase.interrupted := by
      simpa [Session.run, hc] using h
    refine ⟨?_, rfl, rfl, ?_⟩
    · simpa [Session.run, hc] using
        runSteps_interrupted_registry adv sets sess.remainingSteps 0 s hphase
    · intro hsets
      simpa [Session.run, hc] using
        runSteps_registry_frame adv sets hsets sess.remainingSteps 0 s

theorem C2_interruption_persists_witness :
    (Session.run (fun _ => UnitOutcome.continues) (fun _ => Option.none)
        ⟨SessionPhase.created, 5⟩
        ⟨StopKind.requestedAtNextCheckpoint, []⟩).2.2.registry ≠ StopKind.none :=
  (C2_interruption_persists (fun _ => UnitOutcome.continues) (fun _ => Option.none)
    ⟨SessionPhase.created, 5⟩ ⟨StopKind.requestedAtNextCheckpoint, []⟩ (by decide)).1

/-- C3: on a non-Closed Session, `run()` returns a success Status both on
natural completion and on graceful interruption — a failure Status can
only carry an engine-level error — and with a RequestedAtNextCheckpoint
request pending at entry and a non-failing engine, `run()` terminates
with success and the registry still reports a non-None kind. -/
theorem C3_run_success (adv : Nat → UnitOutcome) (sets : Nat → Option StopKind)
    (sess : Session) (s : SysState)
    (hc : sess.phase ≠ SessionPhase.closed)
    (hsets : ∀ j, sets j ≠ Option.some StopKind.none) :
    ((∀ j, adv j = UnitOutcome.continues) →
      (Session.run adv sets sess s).1.success = true) ∧
    ((Session.run adv sets sess s).1.success = false →
      (Session.run adv sets sess s).1.code = StatusCode.engineFailure) ∧
    (s.registry = StopKind.requestedAtNextCheckpoint →
      (Session.run adv sets sess s).1.success = true ∧
      (Session.run adv sets sess s).2.2.registry ≠ StopKind.none) := by
  refine ⟨?_, ?_, ?_⟩
  · intro hadv
    have := runSteps_success adv sets hadv sess.remainingSteps 0 s
    simp [Session.run, hc, this, Status.success, Status.ok]
  · intro hfail
    rcases runSteps_status_cases adv sets sess.remainingSteps 0 s with hok | heng
    · have htrue : (Session.run adv sets sess s).1.success = true := by
        simp [Session.run, hc, hok, Status.success, Status.ok]
      rw [htrue] at hfail
      exact absurd hfail (by decide)
    · simpa [Session.run, hc] using heng
  · intro hreg
    have hne : s.registry ≠ StopKind.none := by simp [hreg]
    have := runSteps_stop_at_entry adv sets hsets sess.remainingSteps 0 s hne
    exact ⟨by simp [Session.run, hc, this.1, Status.success, Status.ok],
           by simpa [Session.run, hc] using this.2⟩

theorem C3_run_success_witness :
    (Session.run (fun _ => UnitOutcome.continues) (fun _ => Option.none)
        ⟨SessionPhase.created, 3⟩
        ⟨StopKind.requestedAtNextCheckpoint, []⟩).1.success = true :=
  ((C3_run_success (fun _ => UnitOutcome.continues) (fun _ => Option.none)
      ⟨SessionPhase.created, 3⟩ ⟨StopKind.requestedAtNextCheckpoint, []⟩
      (by decide) (fun _ h => Option.noConfusion h)).2.2 rfl).1

/-- C4: `close()` is idempotent: the first call returns success, and a
second call on the already-closed Session again returns success with an
unchanged Session and an unchanged engine/system state. -/
theorem C4_close_idempotent (sess : Session) (s : SysState) :
    (Session.close sess s).1.success = true ∧
    Session.close (Session.close sess s).2.1 (Session.close sess s).2.2 =
      Session.close sess s := by
  exact ⟨rfl, by simp [Session.close]⟩

/-- C5: the Session state machine ends in the terminal Closed state:
`run()` on a Closed Session fails with InvalidState and executes nothing
(Session and system state untouched), a `run()` on any non-Closed Session
ends in Completed or Interrupted, and `close()` always lands in Closed. -/
theorem C5_run_after_close (adv : Nat → UnitOutcome) (sets : Nat → Option StopKind)
    (sess : Session) (s : SysState) (h : sess.phase = SessionPhase.closed) :
    (Session.run adv sets sess s).1.code = StatusCode.invalidState ∧
    (Session.run adv sets sess s).1.success = false ∧
    (Session.run adv sets sess s).2.1 = sess ∧
    (Session.run adv sets sess s).2.2 = s ∧
    (∀ (sess2 : Session) (s2 : SysState), sess2.phase ≠ SessionPhase.closed →
      (Session.run adv sets sess2 s2).2.1.phase = SessionPhase.completed ∨
      (Session.run adv sets sess2 s2).2.1.phase = SessionPhase.interrupted) ∧
    (∀ (sess3 : Session) (s3 : SysState),
      (Session.close sess3 s3).2.1.phase = SessionPhase.closed) := by
  refine ⟨?_, ?_, ?_, ?_, ?_, fun _ _ => rfl⟩
  · simp [Session.run, h]
  · simp [Session.run, h, Status.success]
  · simp [Session.run, h]
  · simp [Session.run, h]
  · intro sess2 s2 hc2
    have := runSteps_phase_cases adv sets sess2.remainingSteps 0 s2
    simpa [Session.run, hc2] using this

theorem C5_run_after_close_witness :
    (Session.run (fun _ => UnitOutcome.continues) (fun _ => Option.none)
        ⟨SessionPhase.closed, 3⟩ ⟨StopKind.none, []⟩).1.code =
      StatusCode.invalidState :=
  (C5_run_after_close (fun _ => UnitOutcome.continues) (fun _ => Option.none)
    ⟨SessionPhase.closed, 3⟩ ⟨StopKind.none, []⟩ rfl).1

/-- C6: if resource acquisition fails, `launch` returns a null Session
together with a LaunchError Status and leaves the system state exactly
as it was: no partial Session and no partial effect remains. -/
theorem C6_launch_failure_atomic (sp : SimulationSpec) (ctx : Context)
    (s : SysState) (h : ctx.resourcesOk = false) :
    (SimulationSpec.launch sp ctx s).1 = Option.none ∧
    (SimulationSpec.launch sp ctx s).2.1.code = StatusCode.launchError ∧
    (SimulationSpec.launch sp ctx s).2.1.success = false ∧
    (SimulationSpec.launch sp ctx s).2.2 = s := by
  refine ⟨?_, ?_, ?_, ?_⟩ <;> simp [SimulationSpec.launch, h, Status.success]

theorem C6_launch_failure_atomic_witness :
    (SimulationSpec.launch ⟨"topol.tpr"⟩ ⟨["-nsteps", "10"], false, false⟩
        ⟨StopKind.none, []⟩).1 = Option.none :=
  (C6_launch_failure_atomic ⟨"topol.tpr"⟩ ⟨["-nsteps", "10"], false, false⟩
    ⟨StopKind.none, []⟩ rfl).1

/-- C7: sequential continuation equals one longer run: launching, running
and closing a Session for n steps and then doing the same for m steps on
the same Context yields exactly the system state of a single launch /
run / close of n + m steps. -/
theorem C7_sequential_continuation (sp : SimulationSpec) (ctx : Context)
    (args1 args2 argsBoth : List String) (adv : Nat → UnitOutcome)
    (s : SysState) (n m : Nat)
    (hres : ctx.resourcesOk = true) (hrun : ctx.runningBound = false)
    (h1 : parseNsteps args1 = Option.some n)
    (h2 : parseNsteps args2 = Option.some m)
    (hb : parseNsteps argsBoth = Option.some (n + m))
    (hadv : ∀ j, adv j = UnitOutcome.continues) :
    runScript sp ctx args2 adv (runScript sp ctx args1 adv s) =
      runScript sp ctx argsBoth adv s := by
  have key : ∀ (args : List String) (nn : Nat), parseNsteps args = Option.some nn →
      ∀ (st : SysState), runScript sp ctx args adv st =
        ⟨StopKind.none, st.trajectory ++ List.range' st.trajectory.length nn⟩ := by
    intro args nn hp st
    have hclean := runSteps_clean adv hadv nn 0 st.trajectory
    simp [runScript, Context.setArguments, hrun, SimulationSpec.launch, hres, hp,
          Session.run, Session.close, hclean]
  rw [key args1 n h1 s, key args2 m h2, key argsBoth (n + m) hb s]
  simp only [List.append_assoc, List.length_append, List.length_range',
    List.range'_append_1, SysState.mk.injEq, true_and]
  rw [Nat.add_comm m n]

theorem C7_sequential_continuation_witness :
    runScript ⟨"topol.tpr"⟩ ⟨[], false, true⟩ ["-nsteps", "10", "-noappend"]
        (fun _ => UnitOutcome.continues)
        (runScript ⟨"topol.tpr"⟩ ⟨[], false, true⟩ ["-nsteps", "10", "-noappend"]
          (fun _ => UnitOutcome.continues) ⟨StopKind.requestedAtNextCheckpoint, []⟩) =
      runScript ⟨"topol.tpr"⟩ ⟨[], false, true⟩ ["-nsteps", "20", "-noappend"]
        (fun _ => UnitOutcome.continues) ⟨StopKind.requestedAtNextCheckpoint, []⟩ :=
  C7_sequential_continuation ⟨"topol.tpr"⟩ ⟨[], false, true⟩
    ["-nsteps", "10", "-noappend"] ["-nsteps", "10", "-noappend"]
    ["-nsteps", "20", "-noappend"] (fun _ => UnitOutcome.continues)
    ⟨StopKind.requestedAtNextCheckpoint, []⟩ 10 10 rfl rfl (by decide) (by decide)
    (by decide) (fun _ => rfl)

/-- C8: `setArguments` fails with InvalidArgument (and changes nothing)
exactly when a Session bound to the Context is Running; otherwise it
succeeds, replaces the token sequence, and the replacement takes effect
at the next launch, which snapshots the new step count into the fresh
Session. -/
theorem C8_setArguments (c : Context) (args : List String) :
    (c.runningBound = true →
      (Context.setArguments c args).1.code = StatusCode.invalidArgument ∧
      (Context.setArguments c args).1.success = false ∧
      (Context.setArguments c args).2 = c) ∧
    (c.runningBound = false →
      (Context.setArguments c args).1.success = true ∧
      (Context.setArguments c args).2.mdArgs = args ∧
      (∀ (sp : SimulationSpec) (s : SysState) (nn : Nat),
        parseNsteps args = Option.some nn →
        (SimulationSpec.launch sp (Context.setArguments c args).2 s).1 =
          (if c.resourcesOk then
            Option.some ⟨SessionPhase.created, nn⟩
          else Option.none))) := by
  constructor
  · intro hb
    refine ⟨?_, ?_, ?_⟩ <;> simp [Context.setArguments, hb, Status.success]
  · intro hb
    refine ⟨?_, ?_, ?_⟩
    · simp [Context.setArguments, hb, Status.success, Status.ok]
    · simp [Context.setArguments, hb]
    · intro sp s nn hp
      by_cases hres : c.resourcesOk <;>
        simp [Context.setArguments, hb, SimulationSpec.launch, hres, hp]

theorem C8_setArguments_witness :
    (Context.setArguments ⟨[], false, true⟩ ["-nsteps", "10"]).1.success = true ∧
    (Context.setArguments ⟨[], false, true⟩ ["-nsteps", "10"]).2.mdArgs =
      ["-nsteps", "10"] :=
  ⟨((C8_setArguments ⟨[], false, true⟩ ["-nsteps", "10"]).2 rfl).1,
   ((C8_setArguments ⟨[], false, true⟩ ["-nsteps", "10"]).2 rfl).2.1⟩

/-- C9: `outside` returns only 0, 1 or 2.  With a positive absolute
tolerance it returns 2 exactly when |vexp - vcalc| > 2*abs_toler, 1
exactly when abs_toler < |vexp - vcalc| <= 2*abs_toler, 0 otherwise, and
the relative tolerance is ignored; with a non-positive absolute tolerance
and vexp = 0 it returns 0 whatever vcalc is. -/
theorem C9_outside (vexp vcalc rtol atol : ℚ) :
    (outside vexp vcalc rtol atol = 0 ∨ outside vexp vcalc rtol atol = 1 ∨
      outside vexp vcalc rtol atol = 2) ∧
    (0 < atol →
      (outside vexp vcalc rtol atol = 2 ↔ 2 * atol < |vexp - vcalc|) ∧
      (outside vexp vcalc rtol atol = 1 ↔
        atol < |vexp - vcalc| ∧ |vexp - vcalc| ≤ 2 * atol) ∧
      (outside vexp vcalc rtol atol = 0 ↔ |vexp - vcalc| ≤ atol) ∧
      (∀ rtol2, outside vexp vcalc rtol atol = outside vexp vcalc rtol2 atol)) ∧
    (atol ≤ 0 → vexp = 0 → outside vexp vcalc rtol atol = 0) := by
  refine ⟨?_, ?_, ?_⟩
  · unfold outside
    split_ifs <;> simp
  · intro hpos
    have hrw : ∀ r : ℚ, outside vexp vcalc r atol =
        (if 2 * atol < |vexp - vcalc| then 2
         else if atol < |vexp - vcalc| then 1 else 0) := by
      intro r
      unfold outside
      rw [if_pos hpos]
    rcases lt_or_le (2 * atol) |vexp - vcalc| with h1 | h1
    · rw [hrw rtol, if_pos h1]
      exact ⟨⟨fun _ => h1, fun _ => rfl⟩,
             ⟨fun hh => absurd hh (by norm_num),
              fun hh => absurd hh.2 (not_le.mpr h1)⟩,
             ⟨fun hh => absurd hh (by norm_num),
              fun hh => absurd hh (not_le.mpr (by linarith))⟩,
             fun rtol2 => by rw [hrw rtol2, if_pos h1]⟩
    · rcases lt_or_le atol |vexp - vcalc| with h2 | h2
      · rw [hrw rtol, if_neg (not_lt.mpr h1), if_pos h2]
        exact ⟨⟨fun hh => absurd hh (by norm_num),
                fun hh => absurd hh (not_lt.mpr h1)⟩,
               ⟨fun _ => ⟨h2, h1⟩, fun _ => rfl⟩,
               ⟨fun hh => absurd hh (by norm_num),
                fun hh => absurd hh (not_le.mpr h2)⟩,
               fun rtol2 => by rw [hrw rtol2, if_neg (not_lt.mpr h1), if_pos h2]⟩
      · rw [hrw rtol, if_neg (not_lt.mpr h1), if_neg (not_lt.mpr h2)]
        exact ⟨⟨fun hh => absurd hh (by norm_num),
                fun hh => absurd hh (not_lt.mpr (by linarith))⟩,
               ⟨fun hh => absurd hh (by norm_num),
                fun hh => absurd hh.1 (not_lt.mpr h2)⟩,
               ⟨fun _ => h2, fun _ => rfl⟩,
               fun rtol2 => by
                 rw [hrw rtol2, if_neg (not_lt.mpr h1), if_neg (not_lt.mpr h2)]⟩
  · intro hle hzero
    unfold outside
    rw [if_neg (not_lt.mpr hle), if_pos hzero]

theorem C9_outside_witness : outside 0 3 1 1 = 2 := by
  have h := (C9_outside 0 3 1 1).2.1 (by norm_num)
  exact h.1.mpr (by norm_num)

/-- C10: `alexandria_molprop_category_table` emits a category row block
only for categories passing the `nMol >= catmin && catmin > 1` guard;
with catmin <= 1 it writes exactly the table header and footer, and with
an empty category list it writes nothing at all. -/
theorem C10_category_table (catmin : Int) (cl : CategoryList) :
    (∀ e, categoryRowLines catmin e ≠ [] →
      e.nMolecule ≥ catmin ∧ catmin > 1) ∧
    (catmin ≤ 1 → 0 < cl.nCategories →
      alexandria_molprop_category_table catmin cl =
        [TexLine.header, TexLine.footer]) ∧
    (cl.nCategories = 0 → alexandria_molprop_category_table catmin cl = []) := by
  refine ⟨?_, ?_, ?_⟩
  · intro e hne
    by_cases hg : e.nMolecule ≥ catmin ∧ catmin > 1
    · exact hg
    · exact absurd (by simp [categoryRowLines, hg]) hne
  · intro hcm hn
    have hrow : ∀ e, categoryRowLines catmin e = [] := by
      intro e
      unfold categoryRowLines
      rw [if_neg]
      rintro ⟨-, hgt⟩
      omega
    simp [alexandria_molprop_category_table, hn, hrow]
  · intro hn
    simp [alexandria_molprop_category_table, hn]

theorem C10_category_table_witness :
    alexandria_molprop_category_table 1
        ⟨[⟨"alcohol", ["methanol", "ethanol"]⟩]⟩ =
      [TexLine.header, TexLine.footer] :=
  (C10_category_table 1 ⟨[⟨"alcohol", ["methanol", "ethanol"]⟩]⟩).2.1
    (by decide) (by decide)
